/-
Verification development for the schemaGenius parsing engine
(backend/app/core/parsing_engine).

The Python sources are shallowly embedded: every definition below mirrors a
function or class of the repository (the doc comment of each definition names
the Python source it embeds).  Python's dynamic values are modelled by `PyVal`,
Python exceptions by `PyErr` together with the `Except` monad; functions of the
repository that contain no failing operation are embedded as plain functions.
String operations are modelled on ASCII text (the repository only manipulates
ASCII identifiers and keywords).
-/
import Mathlib

/-! ## Python string primitives (models of the CPython `str` methods used) -/

/-- Characters stripped by Python `str.strip()` with no argument. -/
def pyIsSpace (c : Char) : Bool :=
  c == ' ' || c == '\t' || c == '\n' || c == '\r' || c == '\x0b' || c == '\x0c'

/-- Remove the characters satisfying `p` from both ends of a character list. -/
def stripListBy (p : Char → Bool) (cs : List Char) : List Char :=
  ((cs.dropWhile p).reverse.dropWhile p).reverse

/-- Model of Python `s.strip()`. -/
def pyStrip (s : String) : String := String.mk (stripListBy pyIsSpace s.data)

/-- Model of Python `s.strip(chars)`: strip any of `chars` from both ends. -/
def pyStripChars (s : String) (chars : List Char) : String :=
  String.mk (stripListBy (fun c => chars.contains c) s.data)

/-- Model of Python `s.lower()` (ASCII). -/
def pyLower (s : String) : String := String.mk (s.data.map Char.toLower)

/-- Model of Python `s.upper()` (ASCII). -/
def pyUpperStr (s : String) : String := String.mk (s.data.map Char.toUpper)

/-- `startsWithChars pre cs` holds when `pre` is an initial segment of `cs`. -/
def startsWithChars : List Char → List Char → Bool
  | [], _ => true
  | _ :: _, [] => false
  | a :: as, b :: bs => a == b && startsWithChars as bs

/-- Model of Python `s.startswith(pre)`. -/
def pyStartsWith (s pre : String) : Bool := startsWithChars pre.data s.data

/-- Occurrence of `needle` somewhere in the character list. -/
def listHasInfix (needle : List Char) : List Char → Bool
  | [] => needle.isEmpty
  | c :: rest => startsWithChars needle (c :: rest) || listHasInfix needle rest

/-- Model of Python `needle in hay` on strings. -/
def strContains (hay needle : String) : Bool := listHasInfix needle.data hay.data

/-- Splitting on a single separator character; `[]` input yields `[[]]`,
matching Python `"".split(sep) == [""]`. -/
def splitOnCharAux (sep : Char) : List Char → List Char → List (List Char)
  | [], acc => [acc.reverse]
  | c :: cs, acc =>
      if c == sep then acc.reverse :: splitOnCharAux sep cs []
      else splitOnCharAux sep cs (c :: acc)

/-- Model of Python `s.split(sep)` for a one-character separator. -/
def pySplitOnChar (sep : Char) (s : String) : List String :=
  (splitOnCharAux sep s.data []).map String.mk

/-- Model of Python `sep.join(parts)`. -/
def joinWith (sep : String) : List String → String
  | [] => ""
  | [x] => x
  | x :: xs => x ++ sep ++ joinWith sep xs

/-- Model of Python `s.replace(a, b)` for one-character `a`, `b`. -/
def replaceChar (a b : Char) (s : String) : String :=
  String.mk (s.data.map (fun c => if c == a then b else c))

/-- Model of Python `s.replace(old, new)` for an arbitrary non-empty
substring `old` (used for the SQL quote doubling `value.replace("'", "''")`).
The fuel argument (instantiated with the text's length, which bounds the
number of steps) keeps the recursion structural. -/
def replaceSubFuel (old new : List Char) : Nat → List Char → List Char
  | 0, cs => cs
  | _ + 1, [] => []
  | fuel + 1, c :: rest =>
      if !old.isEmpty && startsWithChars old (c :: rest) then
        new ++ replaceSubFuel old new fuel ((c :: rest).drop old.length)
      else
        c :: replaceSubFuel old new fuel rest

/-- Model of Python `s.replace(old, new)` on strings. -/
def pyReplace (s old new : String) : String :=
  String.mk (replaceSubFuel old.data new.data s.data.length s.data)

/-! ## Models of Python numeric conversions `int(s)` and `float(s)` -/

/-- Underscore-grouped digit runs, as accepted inside CPython numeric
literals handed to `int()` / `float()`: `digit+('_' digit+)*`. -/
def digitGroupsOk (cs : List Char) : Bool :=
  (splitOnCharAux '_' cs []).all (fun g => !g.isEmpty && g.all Char.isDigit)

/-- Numeric value of a digit list (underscores must be filtered out first). -/
def natOfDigits (cs : List Char) : Nat :=
  cs.foldl (fun n c => 10 * n + (c.toNat - '0'.toNat)) 0

/-- Model of Python `int(s)` on strings: surrounding whitespace, an optional
sign, then underscore-grouped decimal digits; `none` models `ValueError`. -/
def pyIntParse (s : String) : Option Int :=
  let cs := stripListBy pyIsSpace s.data
  let signBody : Int × List Char :=
    match cs with
    | '+' :: r => (1, r)
    | '-' :: r => (-1, r)
    | r => (1, r)
  if digitGroupsOk signBody.2 then
    some (signBody.1 * (natOfDigits (signBody.2.filter (fun c => c != '_')) : Int))
  else
    Option.none

/-- Value of a decimal mantissa `intPart.fracPart`. -/
def ratOfMantissa (intPart fracPart : List Char) : Rat :=
  (natOfDigits intPart : Rat) + (natOfDigits fracPart : Rat) / ((10 : Rat) ^ fracPart.length)

/-- Mantissa recognition for Python `float(s)`: `d+ | d+. | d+.d+ | .d+`
(each digit run underscore-grouped), yielding its numeric value. -/
def pyFloatMantissa (mant : List Char) : Option Rat :=
  match splitOnCharAux '.' mant [] with
  | [a] => if digitGroupsOk a then some (ratOfMantissa (a.filter (fun c => c != '_')) []) else Option.none
  | [a, b] =>
      if (a.isEmpty || digitGroupsOk a) && (b.isEmpty || digitGroupsOk b) &&
          !(a.isEmpty && b.isEmpty) then
        some (ratOfMantissa (a.filter (fun c => c != '_')) (b.filter (fun c => c != '_')))
      else Option.none
  | _ => Option.none

/-- Model of Python `float(s)`: whitespace, optional sign, then `inf`,
`infinity`, `nan` (any case: the infinite values are represented by `0`,
which no theorem below observes) or a mantissa with optional exponent;
`none` models `ValueError`. -/
def pyFloatParse (s : String) : Option Rat :=
  let cs := stripListBy pyIsSpace s.data
  let signBody : Rat × List Char :=
    match cs with
    | '+' :: r => (1, r)
    | '-' :: r => (-1, r)
    | r => (1, r)
  let low := signBody.2.map Char.toLower
  if low == "inf".data || low == "infinity".data || low == "nan".data then some 0
  else
    match splitOnCharAux 'e' low [] with
    | [mant] => (pyFloatMantissa mant).map (fun m => signBody.1 * m)
    | [mant, ex] =>
        let exSignBody : Bool × List Char :=
          match ex with
          | '+' :: r => (false, r)
          | '-' :: r => (true, r)
          | r => (false, r)
        if digitGroupsOk exSignBody.2 then
          (pyFloatMantissa mant).map (fun m =>
            let p := natOfDigits (exSignBody.2.filter (fun c => c != '_'))
            if exSignBody.1 then signBody.1 * m / ((10 : Rat) ^ p)
            else signBody.1 * m * ((10 : Rat) ^ p))
        else Option.none
    | _ => Option.none

/-! ## Python dynamic values and exceptions -/

/-- Python exceptions observed by the parsing engine. -/
inductive PyErr where
  | valueError (msg : String)
  | attributeError (msg : String)
  | nameError (msg : String)
  | indexError (msg : String)
  | notImplementedError (msg : String)
deriving DecidableEq, Repr

/-- Dynamic Python values flowing through the engine (JSON documents,
constraint dictionaries, literal values recovered from source code).
Tuples are represented as lists (no claim distinguishes them). -/
inductive PyVal where
  | str (s : String)
  | int (n : Int)
  | float (q : Rat)
  | bool (b : Bool)
  | none
  | list (xs : List PyVal)
  | dict (entries : List (String × PyVal))

/-- Python type name of a value, for `AttributeError` messages. -/
def pyTypeName : PyVal → String
  | .str _ => "str"
  | .int _ => "int"
  | .float _ => "float"
  | .bool _ => "bool"
  | .none => "NoneType"
  | .list _ => "list"
  | .dict _ => "dict"

/-- Python truthiness of a value. -/
def pyTruthy : PyVal → Bool
  | .str s => !s.isEmpty
  | .int n => n != 0
  | .float q => q != 0
  | .bool b => b
  | .none => false
  | .list xs => !xs.isEmpty
  | .dict es => !es.isEmpty

/-- Truthiness of `d.get(k)`-style results (`none` models an absent key,
read back as Python `None`). -/
def pyTruthyOpt : Option PyVal → Bool
  | Option.none => false
  | some v => pyTruthy v

/-- First binding of a key in a dictionary's entry list (the parsers build
their dictionaries from literals without duplicate keys). -/
def pyDictLookup (entries : List (String × PyVal)) (k : String) : Option PyVal :=
  (entries.find? (fun e => e.fst == k)).map (·.snd)

/-- Model of Python `v.get(key)` restricted to values that are dictionaries;
on a non-dictionary it yields `none` (the repository only calls it on values
previously checked, or constructed, to be dictionaries). -/
def pyValGet (v : PyVal) (k : String) : Option PyVal :=
  match v with
  | .dict es => pyDictLookup es k
  | _ => Option.none

/-- Model of Python `v.get(key)` on an arbitrary value: a non-dictionary
raises `AttributeError`, exactly like `data.get(...)` on a decoded JSON list. -/
def pyGetAttrGet (v : PyVal) (k : String) : Except PyErr (Option PyVal) :=
  match v with
  | .dict es => .ok (pyDictLookup es k)
  | w => .error (.attributeError
      ("\x27" ++ pyTypeName w ++ "\x27 object has no attribute \x27get\x27"))

/-- Model of Python `v.get(key, default)` on a value checked to be a dict. -/
def pyValGetD (v : PyVal) (k : String) (dflt : PyVal) : PyVal :=
  match pyValGet v k with
  | some w => w
  | Option.none => dflt

/-- Model of Python `v.upper()` on a dynamic value: only strings have the
attribute, every other type raises `AttributeError` — the crash observed in
the PostgreSQL adapter, which passes a `bool` where a `str` is annotated. -/
def pyUpper : PyVal → Except PyErr String
  | .str s => .ok (pyUpperStr s)
  | v => .error (.attributeError
      ("\x27" ++ pyTypeName v ++ "\x27 object has no attribute \x27upper\x27"))

/-- Model of Python `str(v)` for the scalar values the adapters print. -/
def pyStrOf : PyVal → String
  | .str s => s
  | .int n => toString n
  | .float q => toString q
  | .bool true => "True"
  | .bool false => "False"
  | .none => "None"
  | .list _ => "[...]"
  | .dict _ => "\x7b...\x7d"

/-- Coercion of a dynamic value to the `Option String` used by the typed ISR
fields (`str` passes through, `None` stays absent; non-string values are
stringified — the repository stores them unchanged, but no claim reaches a
non-string here). -/
def pyToOptStr : Option PyVal → Option String
  | Option.none => Option.none
  | some .none => Option.none
  | some (.str s) => some s
  | some v => some (pyStrOf v)

/-! ## `intermediate_schema.py` — the ISR data model -/

/-- Embeds class `ConstraintDetail` of `intermediate_schema.py`: `type` is
`constraint_data.get("type")` and `details` is the constructor's dictionary
argument itself, stored unchanged. -/
structure ConstraintDetail where
  type : Option PyVal
  details : PyVal

/-- Embeds `ConstraintDetail.__init__(constraint_data)`. -/
def ConstraintDetail.ofDict (constraint_data : PyVal) : ConstraintDetail :=
  { type := pyValGet constraint_data "type", details := constraint_data }

/-- Embeds class `ColumnISR` of `intermediate_schema.py`. -/
structure ColumnISR where
  name : String
  generic_type : String
  constraints : List ConstraintDetail
  comment : Option String

/-- Embeds class `TableISR` of `intermediate_schema.py`. -/
structure TableISR where
  name : String
  columns : List ColumnISR
  comment : Option String

/-- Embeds class `SchemaISR` of `intermediate_schema.py`. -/
structure SchemaISR where
  schema_name : Option String
  version : Option String
  tables : List TableISR

/-! ## `parsers/csv_parser.py` -/

namespace CsvParser

/-- Embeds `_clean_csv_header(header_name)` of `csv_parser.py`. -/
def clean_csv_header (header_name : String) : String :=
  if header_name.isEmpty then "unnamed_column"
  else
    let name := pyStripChars (pyStrip header_name) ['\x27', '"']
    let name := replaceChar '/' '_' (replaceChar '.' '_' (replaceChar '-' '_' (replaceChar ' ' '_' name)))
    let name := String.mk (name.data.filter (fun c => c.isAlphanum || c == '_'))
    let name :=
      match name.data with
      | c :: _ => if c.isDigit then "_" ++ name else name
      | [] => name
    let name := joinWith "_" ((pySplitOnChar '_' name).filter (fun p => !p.isEmpty))
    if name.isEmpty then "unnamed_column" else name

/-- The boolean keyword set of `_infer_column_type`. -/
def bool_keywords : List String :=
  ["true", "false", "yes", "no", "t", "f", "y", "n", "1", "0", "on", "off"]

/-- Embeds the sampling loop of `_infer_column_type`: the three flags are
conjunctively updated per value and the loop breaks early once all three are
false (the source's optimization). -/
def inferFlagsLoop : List String → Bool → Bool → Bool → Bool × Bool × Bool
  | [], is_int, is_float, is_bool => (is_int, is_float, is_bool)
  | value_str :: rest, is_int, is_float, is_bool =>
      let value_str_lower := pyLower value_str
      let is_int := is_int && (pyIntParse value_str).isSome
      let is_float := is_float && (pyFloatParse value_str).isSome
      let is_bool := is_bool && bool_keywords.contains value_str_lower
      if !is_int && !is_float && !is_bool then (is_int, is_float, is_bool)
      else inferFlagsLoop rest is_int is_float is_bool

/-- Embeds `_infer_column_type(values, sample_size=100)` of `csv_parser.py`
(the caller passes the default `sample_size` of 100 explicitly here). -/
def infer_column_type (values : List (Option String)) (sample_size : Nat) : String :=
  let sampled_values := (values.filterMap (fun v =>
      match v with
      | Option.none => Option.none
      | some s => if pyStrip s == "" then Option.none else some s)).take sample_size
  if sampled_values.isEmpty then "STRING"
  else
    match inferFlagsLoop sampled_values true true true with
    | (is_int, is_float, is_bool) =>
        if is_int then "INTEGER"
        else if is_float then "FLOAT"
        else if is_bool then "BOOLEAN"
        else "STRING"

/-- Embeds the duplicate-header loop of `parse_csv_input` (`name_counts` is
the insertion-ordered dict, `acc` the accumulated `final_column_names`). -/
def dedupFold : List String → List (String × Nat) → List String → List String
  | [], _, acc => acc.reverse
  | name :: rest, name_counts, acc =>
      match (name_counts.find? (fun e => e.fst == name)).map (·.snd) with
      | some c =>
          dedupFold rest
            (name_counts.map (fun e => if e.fst == name then (e.fst, c + 1) else e))
            ((name ++ "_" ++ toString (c + 1)) :: acc)
      | Option.none => dedupFold rest (name_counts ++ [(name, 0)]) (name :: acc)

/-- Duplicate cleaned header names receive `_1`, `_2`, … suffixes. -/
def dedupHeaders (names : List String) : List String := dedupFold names [] []

/-- Embeds the transposition step of `parse_csv_input` (lines 151-158): each
cell of a data row is appended to its column's sample; cells beyond the
header width fall off the end of `cols` and are ignored, a short row leaves
the remaining columns untouched. -/
def updateRow : List (List String) → List String → List (List String)
  | [], _ => []
  | cols, [] => cols
  | col :: cols, cell :: cells => (col ++ [cell]) :: updateRow cols cells

/-- Embeds `parse_csv_input` of `csv_parser.py` from the point where the rows
have been read (`rows = list(reader)`, line 121).  The `csv` standard-library
reader and dialect sniffer are external to the repository; the function is
therefore stated over the row list they produce. -/
def parse_csv_rows (rows : List (List String)) (table_name_from_file : Option String) :
    Except PyErr SchemaISR :=
  let effective_table_name :=
    match table_name_from_file with
    | some nm => if !nm.isEmpty then clean_csv_header nm else "csv_imported_table"
    | Option.none => "csv_imported_table"
  match rows with
  | [] => .ok { schema_name := Option.none, version := Option.none, tables := [] }
  | header :: data_rows =>
    if header.all (fun h => pyStrip h == "") then
      .error (.valueError "CSV header row is missing, empty, or contains only whitespace.")
    else
      let column_names := dedupHeaders (header.map clean_csv_header)
      if data_rows.isEmpty then
        .ok { schema_name := Option.none, version := Option.none,
              tables := [{ name := effective_table_name,
                           columns := column_names.map (fun nm =>
                             { name := nm, generic_type := "STRING",
                               constraints := [], comment := Option.none }),
                           comment := Option.none }] }
      else
        let columns_data := data_rows.foldl updateRow (List.replicate column_names.length [])
        let columns_isr := column_names.enum.map (fun p =>
          { name := p.snd,
            generic_type := infer_column_type ((columns_data.getD p.fst []).map some) 100,
            constraints := [], comment := Option.none : ColumnISR })
        .ok { schema_name := Option.none, version := Option.none,
              tables := [{ name := effective_table_name, columns := columns_isr,
                           comment := Option.none }] }

end CsvParser

/-! ## `parsers/json_parser.py` (with a model of the stdlib `json.loads`) -/

namespace JsonParser

/-- JSON whitespace. -/
def jsonWs (c : Char) : Bool := c == ' ' || c == '\t' || c == '\n' || c == '\r'

/-- Hex digit value, for `\uXXXX` escapes. -/
def hexVal (c : Char) : Option Nat :=
  if c.isDigit then some (c.toNat - '0'.toNat)
  else if 'a' ≤ c ∧ c ≤ 'f' then some (c.toNat - 'a'.toNat + 10)
  else if 'A' ≤ c ∧ c ≤ 'F' then some (c.toNat - 'A'.toNat + 10)
  else Option.none

/-- JSON string body parser (after the opening quote), fuel-structural. -/
def jsonStrAux : Nat → List Char → List Char → Option (String × List Char)
  | 0, _, _ => Option.none
  | fuel + 1, acc, cs =>
      match cs with
      | '"' :: rest => some (String.mk acc.reverse, rest)
      | '\\' :: e :: rest =>
          match e with
          | '"' => jsonStrAux fuel ('"' :: acc) rest
          | '\\' => jsonStrAux fuel ('\\' :: acc) rest
          | '/' => jsonStrAux fuel ('/' :: acc) rest
          | 'n' => jsonStrAux fuel ('\n' :: acc) rest
          | 't' => jsonStrAux fuel ('\t' :: acc) rest
          | 'r' => jsonStrAux fuel ('\r' :: acc) rest
          | 'b' => jsonStrAux fuel ('\x08' :: acc) rest
          | 'f' => jsonStrAux fuel ('\x0c' :: acc) rest
          | 'u' =>
              match rest with
              | h1 :: h2 :: h3 :: h4 :: rest2 =>
                  match hexVal h1, hexVal h2, hexVal h3, hexVal h4 with
                  | some a, some b, some c, some d =>
                      jsonStrAux fuel (Char.ofNat (((a * 16 + b) * 16 + c) * 16 + d) :: acc) rest2
                  | _, _, _, _ => Option.none
              | _ => Option.none
          | _ => Option.none
      | c :: rest => jsonStrAux fuel (c :: acc) rest
      | [] => Option.none

/-- JSON number parser: `-?digits(.digits)?((e|E)(+|-)?digits)?`; an integer
literal decodes to a Python `int`, otherwise to a `float`. -/
def jsonNumber (cs : List Char) : Option (PyVal × List Char) :=
  let signRest : Bool × List Char :=
    match cs with
    | '-' :: r => (true, r)
    | r => (false, r)
  let intDigits := signRest.2.takeWhile Char.isDigit
  let rest1 := signRest.2.dropWhile Char.isDigit
  if intDigits.isEmpty then Option.none
  else
    let fracRest : Option (List Char × List Char) :=
      match rest1 with
      | '.' :: r2 =>
          let fd := r2.takeWhile Char.isDigit
          if fd.isEmpty then Option.none else some (fd, r2.dropWhile Char.isDigit)
      | r => some ([], r)
    match fracRest with
    | Option.none => Option.none
    | some (fracDigits, rest2) =>
        let expRest : Option (Option Int × List Char) :=
          match rest2 with
          | 'e' :: r3 | 'E' :: r3 =>
              let eSign : Bool × List Char :=
                match r3 with
                | '+' :: r4 => (false, r4)
                | '-' :: r4 => (true, r4)
                | r4 => (false, r4)
              let ed := eSign.2.takeWhile Char.isDigit
              if ed.isEmpty then Option.none
              else
                let e : Int := natOfDigits ed
                some (some (if eSign.1 then -e else e), eSign.2.dropWhile Char.isDigit)
          | r => some (Option.none, r)
        match expRest with
        | Option.none => Option.none
        | some (expOpt, rest3) =>
            if fracDigits.isEmpty ∧ expOpt = Option.none then
              let n : Int := natOfDigits intDigits
              some (.int (if signRest.1 then -n else n), rest3)
            else
              let m := ratOfMantissa intDigits fracDigits
              let m := if signRest.1 then -m else m
              let m :=
                match expOpt with
                | some e =>
                    if e ≥ 0 then m * ((10 : Rat) ^ e.toNat) else m / ((10 : Rat) ^ (-e).toNat)
                | Option.none => m
              some (.float m, rest3)

mutual

/-- JSON value parser (model of the stdlib `json.loads` grammar),
fuel-structural so that it reduces inside the kernel. -/
def jsonVal : Nat → List Char → Except String (PyVal × List Char)
  | 0, _ => .error "Expecting value"
  | fuel + 1, cs =>
      let cs := cs.dropWhile jsonWs
      if startsWithChars "null".data cs then .ok (.none, cs.drop 4)
      else if startsWithChars "true".data cs then .ok (.bool true, cs.drop 4)
      else if startsWithChars "false".data cs then .ok (.bool false, cs.drop 5)
      else
        match cs with
        | '"' :: rest =>
            match jsonStrAux (rest.length + 1) [] rest with
            | some (s, rest2) => .ok (.str s, rest2)
            | Option.none => .error "Unterminated string"
        | '[' :: rest =>
            let rest := rest.dropWhile jsonWs
            (match rest with
             | ']' :: rest2 => .ok (.list [], rest2)
             | _ => do
                 let (v, rest2) ← jsonVal fuel rest
                 jsonArrRest fuel [v] rest2)
        | '\x7b' :: rest =>
            let rest := rest.dropWhile jsonWs
            (match rest with
             | '\x7d' :: rest2 => .ok (.dict [], rest2)
             | _ => jsonObjMember fuel [] rest)
        | _ =>
            match jsonNumber cs with
            | some (v, rest) => .ok (v, rest)
            | Option.none => .error "Expecting value"

/-- Remaining elements of a JSON array, after at least one element. -/
def jsonArrRest : Nat → List PyVal → List Char → Except String (PyVal × List Char)
  | 0, _, _ => .error "Expecting value"
  | fuel + 1, acc, cs =>
      match cs.dropWhile jsonWs with
      | ']' :: rest => .ok (.list acc.reverse, rest)
      | ',' :: rest => do
          let (v, rest2) ← jsonVal fuel rest
          jsonArrRest fuel (v :: acc) rest2
      | _ => .error "Expecting \x27,\x27 delimiter"

/-- One `"key": value` member of a JSON object, then the delimiter. -/
def jsonObjMember : Nat → List (String × PyVal) → List Char →
    Except String (PyVal × List Char)
  | 0, _, _ => .error "Expecting value"
  | fuel + 1, acc, cs =>
      match cs.dropWhile jsonWs with
      | '"' :: rest =>
          match jsonStrAux (rest.length + 1) [] rest with
          | Option.none => .error "Unterminated string"
          | some (k, rest2) =>
              match rest2.dropWhile jsonWs with
              | ':' :: rest3 => do
                  let (v, rest4) ← jsonVal fuel rest3
                  let acc :=
                    if acc.any (fun e => e.fst == k) then
                      acc.map (fun e => if e.fst == k then (k, v) else e)
                    else acc ++ [(k, v)]
                  (match rest4.dropWhile jsonWs with
                   | '\x7d' :: rest5 => .ok (.dict acc, rest5)
                   | ',' :: rest5 => jsonObjMember fuel acc rest5
                   | _ => .error "Expecting \x27,\x27 delimiter")
              | _ => .error "Expecting \x27:\x27 delimiter"
      | _ => .error "Expecting property name enclosed in double quotes"

end

/-- Model of the stdlib `json.loads`: decode a JSON document to a `PyVal`;
the error string models `json.JSONDecodeError`'s message. -/
def json_loads (s : String) : Except String PyVal :=
  match jsonVal (2 * s.length + 4) s.data with
  | .error e => .error e
  | .ok (v, rest) => if (rest.dropWhile jsonWs).isEmpty then .ok v else .error "Extra data"

/-- Embeds `parse_json_input(json_data)` of `json_parser.py`.  The Python
`ValueError` messages also interpolate the offending value; only their static
prefix is modelled, no claim observes the message text of these errors. -/
def parse_json_input (json_data : String) : Except PyErr SchemaISR := do
  let data ← match json_loads json_data with
    | .error e => Except.error (.valueError ("Invalid JSON format: " ++ e))
    | .ok v => Except.ok v
  let schema_name ← pyGetAttrGet data "schema_name"
  let schema_version ← pyGetAttrGet data "version"
  let raw_tables ← pyGetAttrGet data "tables"
  match raw_tables with
  | some (.list raw) => do
      let mut tables_isr : List TableISR := []
      for table_data in raw do
        match table_data with
        | .dict _ =>
            let table_name := pyValGet table_data "name"
            let table_comment := pyValGet table_data "comment"
            let raw_columns := pyValGet table_data "columns"
            if !pyTruthyOpt table_name then
              throw (.valueError "Missing \x27name\x27 for table")
            match raw_columns with
            | some (.list cols) =>
                let mut columns_isr : List ColumnISR := []
                for col_data in cols do
                  match col_data with
                  | .dict _ =>
                      let col_name := pyValGet col_data "name"
                      let col_type := pyValGet col_data "generic_type"
                      let col_comment := pyValGet col_data "comment"
                      let raw_constraints := pyValGet col_data "constraints"
                      if !pyTruthyOpt col_name || !pyTruthyOpt col_type then
                        throw (.valueError "Missing \x27name\x27 or \x27generic_type\x27 for column")
                      let mut constraints_isr : List ConstraintDetail := []
                      match raw_constraints with
                      | some (.list consts) =>
                          for const_data in consts do
                            match const_data with
                            | .dict _ =>
                                if !pyTruthyOpt (pyValGet const_data "type") then
                                  throw (.valueError "Invalid constraint format for column")
                                constraints_isr := constraints_isr ++ [ConstraintDetail.ofDict const_data]
                            | _ => throw (.valueError "Invalid constraint format for column")
                      | _ => pure ()
                      columns_isr := columns_isr ++
                        [{ name := (pyToOptStr col_name).getD "",
                           generic_type := (pyToOptStr col_type).getD "",
                           constraints := constraints_isr,
                           comment := pyToOptStr col_comment }]
                  | _ => throw (.valueError "Invalid column entry (expected dict)")
                tables_isr := tables_isr ++
                  [{ name := (pyToOptStr table_name).getD "",
                     columns := columns_isr,
                     comment := pyToOptStr table_comment }]
            | _ => throw (.valueError "Missing or invalid \x27columns\x27 list for table")
        | _ => throw (.valueError "Invalid table entry in \x27tables\x27 list (expected dict)")
      return { schema_name := pyToOptStr schema_name,
               version := pyToOptStr schema_version,
               tables := tables_isr }
  | _ => .error (.valueError "Missing or invalid \x27tables\x27 list in JSON input.")

end JsonParser

/-! ## `parsing_engine/__init__.py` — the `ParsingEngine` dispatch -/

namespace ParsingEngine

/-- Embeds `ParsingEngine.generate_schema_from_input(input_data, input_type)`
of `parsing_engine/__init__.py`: only `"json"` is dispatched; every other
`input_type` raises `NotImplementedError` naming the requested key.  (The
`try`/`except ValueError` around the JSON call re-raises unchanged.) -/
def generate_schema_from_input (input_data : String) (input_type : String) :
    Except PyErr SchemaISR :=
  if pyLower input_type == "json" then
    JsonParser.parse_json_input input_data
  else
    .error (.notImplementedError
      ("Parser for input type \x27" ++ input_type ++ "\x27 is not implemented."))

/-- Embeds `ParsingEngine.convert_isr_to_target_ddl(isr, target_db)` of
`parsing_engine/__init__.py`: the body is the placeholder f-string, returned
for every `target_db`; no code path raises. -/
def convert_isr_to_target_ddl (isr : SchemaISR) (target_db : String) : String :=
  "-- Placeholder DDL for " ++ target_db ++ " from ISR with " ++
    toString isr.tables.length ++ " tables and schema name \x27" ++
    (match isr.schema_name with | some s => s | Option.none => "None") ++ "\x27 --"

end ParsingEngine

/-! ## `adapters/postgresql_adapter.py` -/

namespace PostgresqlAdapter

/-- Embeds `_clean_identifier(name)` of `postgresql_adapter.py`. -/
def clean_identifier (name : Option String) : String :=
  match name with
  | Option.none => ""
  | some s => pyStripChars s ['`', '"', '\x27']

/-- Embeds the guarded generator
`any(c.type.upper() == target for c in constraints if c.type)` used by the
adapter; like Python's `any`, it stops at the first hit. -/
def anyConstraintType (cs : List ConstraintDetail) (target : String) : Except PyErr Bool := do
  for c in cs do
    if pyTruthyOpt c.type then
      let u ← pyUpper (c.type.getD .none)
      if u == target then return true
  return false

/-- The generic-type → PostgreSQL-type dictionary of
`_map_generic_type_to_postgresql` (default `TEXT`). -/
def pgTypeMapping (t : String) : String :=
  (([("STRING", "VARCHAR(255)"), ("TEXT", "TEXT"), ("INTEGER", "INTEGER"),
     ("BIG_INTEGER", "BIGINT"), ("FLOAT", "REAL"),
     ("DOUBLE_PRECISION", "DOUBLE PRECISION"), ("DECIMAL", "DECIMAL(10, 2)"),
     ("BOOLEAN", "BOOLEAN"), ("DATE", "DATE"), ("TIME", "TIME WITHOUT TIME ZONE"),
     ("DATETIME", "TIMESTAMP WITHOUT TIME ZONE"), ("TIMESTAMP", "TIMESTAMP WITH TIME ZONE"),
     ("BLOB", "BYTEA"), ("JSON_TYPE", "JSONB"), ("UUID_TYPE", "UUID")]
    : List (String × String)).find? (fun e => e.fst == t)).elim "TEXT" (·.snd)

/-- Embeds `_map_generic_type_to_postgresql(col_isr, custom_enum_types)`
(`custom_enum_types` is accepted but, as in the source, never read). -/
def map_generic_type_to_postgresql (col_isr : ColumnISR) (custom_enum_types : List String) :
    Except PyErr String := do
  let _ := custom_enum_types
  let generic_type_upper := pyUpperStr col_isr.generic_type
  let is_pk ← anyConstraintType col_isr.constraints "PRIMARY_KEY"
  let is_auto_increment ← anyConstraintType col_isr.constraints "AUTO_INCREMENT"
  if is_pk && is_auto_increment then
    if generic_type_upper == "BIG_INTEGER" then return "BIGSERIAL"
    if generic_type_upper == "INTEGER" then return "SERIAL"
  if generic_type_upper == "ENUM_TYPE" then
    return "TEXT /* ENUM: " ++ col_isr.name ++ " - Will be replaced by custom type */"
  return pgTypeMapping generic_type_upper

/-- Embeds `_get_column_constraints_ddl(col_isr, pg_type)` of
`postgresql_adapter.py`.  The source annotates `pg_type: str`, but its only
caller (line 136) passes the boolean `is_serial`; the parameter is therefore
modelled as a dynamic value, and `pg_type.upper()` raises `AttributeError`
on a `bool` exactly as CPython does. -/
def get_column_constraints_ddl (col_isr : ColumnISR) (pg_type : PyVal) :
    Except PyErr String := do
  let mut parts : List String := []
  let pgU ← pyUpper pg_type
  let is_serial_type := strContains pgU "SERIAL"
  for constraint in col_isr.constraints do
    let ctype ← if pyTruthyOpt constraint.type then pyUpper (constraint.type.getD .none) else pure ""
    if ctype == "PRIMARY_KEY" then
      -- `has_pk_constraint` is set in the source but never read afterwards
      if !is_serial_type then parts := parts ++ ["PRIMARY KEY"]
    else if ctype == "NOT_NULL" then
      if !is_serial_type then parts := parts ++ ["NOT NULL"]
    else if ctype == "UNIQUE" then
      let is_pk ← anyConstraintType col_isr.constraints "PRIMARY_KEY"
      if !is_pk then parts := parts ++ ["UNIQUE"]
    else if ctype == "DEFAULT" then
      let default_details := constraint.details
      if pyTruthy default_details then
        match pyValGet default_details "value" with
        | some (.str v) =>
            if pyUpperStr v == "CURRENT_TIMESTAMP" || pyStartsWith (pyUpperStr v) "NOW()" then
              parts := parts ++ ["DEFAULT " ++ pyUpperStr v]
            else
              parts := parts ++ ["DEFAULT \x27" ++ pyReplace v "\x27" "\x27\x27" ++ "\x27"]
        | some (.bool b) => parts := parts ++ ["DEFAULT " ++ pyUpperStr (pyStrOf (.bool b))]
        | some (.int n) => parts := parts ++ ["DEFAULT " ++ toString n]
        | some (.float q) => parts := parts ++ ["DEFAULT " ++ pyStrOf (.float q)]
        | _ => pure ()
  return joinWith " " parts

/-- Embeds the foreign-key collection loop of `convert_isr_to_postgresql_ddl`
(lines 150-170): the `ALTER TABLE ... ADD CONSTRAINT` statements contributed
by one column.  Note line 152's `constraint.type.upper()` is unguarded, and
the payload keys are read from the top level of `details`. -/
def fkAlterForColumn (table_name : String) (col_isr : ColumnISR) :
    Except PyErr (List String) := do
  let mut stmts : List String := []
  for constraint in col_isr.constraints do
    let ctype ← pyUpper (constraint.type.getD .none)
    if ctype == "FOREIGN_KEY" then
      let details := constraint.details
      let fk_name := pyValGetD details "name"
        (.str ("fk_" ++ clean_identifier (some table_name) ++ "_" ++ clean_identifier (some col_isr.name)))
      let ref_table := clean_identifier (pyToOptStr (some (pyValGetD details "references_table" (.str ""))))
      match pyValGetD details "references_columns" (.list []) with
      | .list rcs =>
          if ref_table != "" && !rcs.isEmpty then
            let ref_cols_str := joinWith ", "
              (rcs.map (fun rc => "\"" ++ clean_identifier (pyToOptStr (some rc)) ++ "\""))
            let on_delete ← pyUpper (pyValGetD details "on_delete" (.str "NO ACTION"))
            let on_update ← pyUpper (pyValGetD details "on_update" (.str "NO ACTION"))
            let fk_actions :=
              (if on_delete != "" && on_delete != "NO ACTION" then " ON DELETE " ++ on_delete else "")
                ++ (if on_update != "" && on_update != "NO ACTION" then " ON UPDATE " ++ on_update else "")
            stmts := stmts ++
              ["ALTER TABLE \"" ++ clean_identifier (some table_name) ++ "\" ADD CONSTRAINT \"" ++
                clean_identifier (pyToOptStr (some fk_name)) ++ "\" FOREIGN KEY (\"" ++ col_isr.name ++
                "\") REFERENCES \"" ++ ref_table ++ "\" (" ++ ref_cols_str ++ ")" ++ fk_actions ++ ";"]
      | _ => pure ()
  return stmts

/-- Lexicographic comparison on character code points
(Python `sorted` on strings). -/
def strLeChars : List Char → List Char → Bool
  | [], _ => true
  | _ :: _, [] => false
  | a :: as, b :: bs => if a == b then strLeChars as bs else decide (a < b)

/-- Insertion into a sorted string list. -/
def insertSorted (x : String) : List String → List String
  | [] => [x]
  | y :: ys => if strLeChars x.data y.data then x :: y :: ys else y :: insertSorted x ys

/-- Model of Python `sorted` on a string list. -/
def sortStrings (xs : List String) : List String := xs.foldl (fun acc x => insertSorted x acc) []

/-- Embeds pass 1 of `convert_isr_to_postgresql_ddl` (lines 99-111): the
insertion-ordered `enum_type_creations` dictionary, one
`CREATE TYPE ... AS ENUM` per (table, column) enum.  As the lazy `next(...)`
generator does, the search for the ENUM_VALUES constraint stops at the first
hit. -/
def enumTypeCreations (schema_isr : SchemaISR) : Except PyErr (List (String × String)) := do
  let mut enum_type_creations : List (String × String) := []
  for table_isr in schema_isr.tables do
    for col_isr in table_isr.columns do
      if pyUpperStr col_isr.generic_type == "ENUM_TYPE" then
        let mut enum_values_detail : Option ConstraintDetail := Option.none
        for c in col_isr.constraints do
          if enum_values_detail.isNone then
            let u ← pyUpper (c.type.getD .none)
            if u == "ENUM_VALUES" then enum_values_detail := some c
        match enum_values_detail with
        | some evd =>
            match pyValGet evd.details "values" with
            | some (.list enum_vals) =>
                if !enum_vals.isEmpty then
                  let type_name := pyLower ("enum_" ++ clean_identifier (some table_isr.name) ++
                    "_" ++ clean_identifier (some col_isr.name))
                  if !(enum_type_creations.any (fun e => e.fst == type_name)) then
                    let formatted := joinWith ", " (enum_vals.map (fun val =>
                      "\x27" ++ pyReplace (pyStrOf val) "\x27" "\x27\x27" ++ "\x27"))
                    enum_type_creations := enum_type_creations ++
                      [(type_name, "CREATE TYPE \"" ++ type_name ++ "\" AS ENUM (" ++ formatted ++ ");")]
            | _ => pure ()
        | Option.none => pure ()
  return enum_type_creations

/-- Embeds `convert_isr_to_postgresql_ddl(schema_isr)` of
`postgresql_adapter.py`. -/
def convert_isr_to_postgresql_ddl (schema_isr : SchemaISR) : Except PyErr String := do
  let mut all_ddl_statements : List String := []
  let mut foreign_key_alter_statements : List String := []
  let mut column_comments : List String := []
  let mut table_comments : List String := []
  match schema_isr.schema_name with
  | some s =>
      if !s.isEmpty then all_ddl_statements := all_ddl_statements ++ ["-- Schema: " ++ s]
  | Option.none => pure ()
  match schema_isr.version with
  | some s =>
      if !s.isEmpty then all_ddl_statements := all_ddl_statements ++ ["-- Version: " ++ s]
  | Option.none => pure ()
  all_ddl_statements := all_ddl_statements ++ ["-- Generated by SchemaGenius for PostgreSQL\n"]
  let enum_type_creations ← enumTypeCreations schema_isr
  if !enum_type_creations.isEmpty then
    all_ddl_statements := all_ddl_statements ++ ["-- Custom ENUM types"] ++
      sortStrings (enum_type_creations.map (·.snd)) ++ [""]
  for table_isr in schema_isr.tables do
    let mut column_definitions : List String := []
    let mut table_level_constraints_str : List String := []
    let mut pk_cols_for_table_constraint : List String := []
    for col_isr in table_isr.columns do
      let pg_type ←
        if pyUpperStr col_isr.generic_type == "ENUM_TYPE" then
          pure (pyLower ("\"enum_" ++ clean_identifier (some table_isr.name) ++ "_" ++
            clean_identifier (some col_isr.name) ++ "\""))
        else
          map_generic_type_to_postgresql col_isr (enum_type_creations.map (·.fst))
      let is_serial := strContains (pyUpperStr pg_type) "SERIAL"
      -- line 136 of the source passes the *boolean* `is_serial` where
      -- `_get_column_constraints_ddl` expects the `pg_type` string:
      let constraints_str ← get_column_constraints_ddl col_isr (.bool is_serial)
      let col_def_parts := ["    \"" ++ clean_identifier (some col_isr.name) ++ "\" " ++ pg_type]
      let col_def_parts :=
        if constraints_str != "" then col_def_parts ++ [constraints_str] else col_def_parts
      column_definitions := column_definitions ++ [joinWith " " col_def_parts]
      match col_isr.comment with
      | some cm =>
          if !cm.isEmpty then
            column_comments := column_comments ++
              ["COMMENT ON COLUMN \"" ++ clean_identifier (some table_isr.name) ++ "\".\"" ++
                clean_identifier (some col_isr.name) ++ "\" IS \x27" ++
                pyReplace cm "\x27" "\x27\x27" ++ "\x27;"]
      | Option.none => pure ()
      let is_pk_col ← anyConstraintType col_isr.constraints "PRIMARY_KEY"
      if is_pk_col && !is_serial then
        pk_cols_for_table_constraint := pk_cols_for_table_constraint ++
          ["\"" ++ clean_identifier (some col_isr.name) ++ "\""]
      let fks ← fkAlterForColumn table_isr.name col_isr
      foreign_key_alter_statements := foreign_key_alter_statements ++ fks
    if !pk_cols_for_table_constraint.isEmpty then
      table_level_constraints_str := table_level_constraints_str ++
        ["    PRIMARY KEY (" ++ joinWith ", " pk_cols_for_table_constraint ++ ")"]
    if column_definitions.isEmpty then
      continue
    let all_col_and_table_constraints := column_definitions ++ table_level_constraints_str
    all_ddl_statements := all_ddl_statements ++
      ["CREATE TABLE \"" ++ clean_identifier (some table_isr.name) ++ "\" (\n" ++
        joinWith ",\n" all_col_and_table_constraints ++ "\n);"]
    match table_isr.comment with
    | some cm =>
        if !cm.isEmpty then
          table_comments := table_comments ++
            ["COMMENT ON TABLE \"" ++ clean_identifier (some table_isr.name) ++ "\" IS \x27" ++
              pyReplace cm "\x27" "\x27\x27" ++ "\x27;"]
    | Option.none => pure ()
    all_ddl_statements := all_ddl_statements ++ [""]
  if !foreign_key_alter_statements.isEmpty then
    all_ddl_statements := all_ddl_statements ++
      ["-- Foreign Key Constraints (added via ALTER TABLE)"] ++ foreign_key_alter_statements ++ [""]
  if !table_comments.isEmpty then
    all_ddl_statements := all_ddl_statements ++ ["-- Table Comments"] ++ table_comments ++ [""]
  if !column_comments.isEmpty then
    all_ddl_statements := all_ddl_statements ++ ["-- Column Comments"] ++ column_comments ++ [""]
  return joinWith "\n" all_ddl_statements

end PostgresqlAdapter

/-! ## `parsers/sql_parser.py` (over a model of the sqlparse token stream) -/

namespace SqlParser

/-- sqlparse token types (`sqlparse.tokens`) restricted to the kinds the
repository inspects; `kwDDL` is `Token.Keyword.DDL`, a child of `Keyword`. -/
inductive TType where
  | kwDDL | kw | nameT | nameBuiltin | punct | numInt | numFloat | strLit | ws | comment
deriving DecidableEq

/-- A child of `Keyword` in the sqlparse token-type hierarchy. -/
def TType.inKeyword : TType → Bool
  | .kwDDL | .kw => true
  | _ => false

/-- Modelled sqlparse token: simple tokens carry a type and their text;
`ident`, `funcTok` and `paren` model the grouped `Identifier`, `Function`
and `Parenthesis` token lists.  As in sqlparse, a group caches its full text
(`value`) and a `Parenthesis`'s children include its own `(` and `)`. -/
inductive SqlTok where
  | tok (tt : TType) (value : String)
  | ident (value : String) (realName : String)
  | funcTok (value : String) (params : List String)
  | paren (value : String) (children : List SqlTok)

/-- Python `str(token)`. -/
def SqlTok.strValue : SqlTok → String
  | .tok _ v => v
  | .ident v _ => v
  | .funcTok v _ => v
  | .paren v _ => v

/-- `token.ttype` (grouped token lists have `ttype is None`). -/
def SqlTok.ttype : SqlTok → Option TType
  | .tok tt _ => some tt
  | _ => Option.none

/-- `token.is_whitespace`. -/
def SqlTok.isWhitespace (t : SqlTok) : Bool := t.ttype == some .ws

/-- `token.is_comment` (comment tokens, as the repository reads them). -/
def SqlTok.isComment (t : SqlTok) : Bool := t.ttype == some .comment

/-- `token.is_keyword`, i.e. `ttype in Keyword`. -/
def SqlTok.isKeywordTok (t : SqlTok) : Bool :=
  match t.ttype with
  | some tt => tt.inKeyword
  | Option.none => false

/-- `token.normalized`: keywords are upper-cased. -/
def SqlTok.normalized (t : SqlTok) : String :=
  if t.isKeywordTok then pyUpperStr t.strValue else t.strValue

/-- `token.match(ttype, value)`: exact token-type identity plus normalized
value comparison. -/
def SqlTok.matchTok (t : SqlTok) (tt : TType) (v : String) : Bool :=
  t.ttype == some tt && t.normalized == v

/-- `isinstance(token, TokenList)`: grouped tokens. -/
def SqlTok.isGroup : SqlTok → Bool
  | .ident _ _ => true
  | .funcTok _ _ => true
  | .paren _ _ => true
  | _ => false

/-- `token.get_real_name()` as the repository uses it (line 209): an
`Identifier` yields its real name, a `Function` its name; for other tokens
the repository falls back to `str(token)` (a `Parenthesis` group yields
`str(None)`, never reached by the claims). -/
def SqlTok.realNameStr : SqlTok → String
  | .ident _ r => r
  | .funcTok v _ => v
  | .paren _ _ => "None"
  | .tok _ v => v

/-- Embeds `_clean_identifier(identifier)` of `sql_parser.py`. -/
def clean_identifier (identifier : String) : String :=
  pyStripChars identifier ['`', '\x27', '"']

/-- Embeds `_map_sql_type_to_generic(sql_type, type_params)` of
`sql_parser.py` (`type_params` is accepted but, as in the source, unused). -/
def map_sql_type_to_generic (sql_type : String) (type_params : List String) : String :=
  let _ := type_params
  let sql_type_upper := pyUpperStr (clean_identifier sql_type)
  if strContains sql_type_upper "BIGINT" then "BIG_INTEGER"
  else if strContains sql_type_upper "INT" then "INTEGER"
  else if strContains sql_type_upper "TEXT" || strContains sql_type_upper "CLOB" then "TEXT"
  else if pyStartsWith sql_type_upper "VARCHAR" || pyStartsWith sql_type_upper "CHAR" ||
      pyStartsWith sql_type_upper "STRING" || pyStartsWith sql_type_upper "NVARCHAR" then "STRING"
  else if strContains sql_type_upper "DECIMAL" || strContains sql_type_upper "NUMERIC" then "DECIMAL"
  else if strContains sql_type_upper "FLOAT" || strContains sql_type_upper "REAL" ||
      strContains sql_type_upper "DOUBLE" then "FLOAT"
  else if sql_type_upper == "DATETIME" then "DATETIME"
  else if strContains sql_type_upper "TIMESTAMP" then "TIMESTAMP"
  else if sql_type_upper == "DATE" then "DATE"
  else if sql_type_upper == "TIME" && !strContains sql_type_upper "TIMESTAMP" then "TIME"
  else if strContains sql_type_upper "BOOL" then "BOOLEAN"
  else if strContains sql_type_upper "BLOB" || strContains sql_type_upper "BINARY" ||
      strContains sql_type_upper "BYTEA" then "BLOB"
  else if strContains sql_type_upper "JSON" then "JSON_TYPE"
  else if strContains sql_type_upper "UUID" then "UUID_TYPE"
  else "STRING"

/-- Embeds the constraint-scanning `while` loop of `_extract_column_details`
(lines 73-122 of `sql_parser.py`); the index walk becomes structural
recursion on the remaining token list.  The `DEFAULT` literal conversion
models `int()` / `float()`, which can raise `ValueError`.  The fuel argument
(instantiated with the token-list length, which bounds the number of steps)
keeps the recursion structural. -/
def scanConstraintTokens : Nat → List SqlTok → Except PyErr (List ConstraintDetail)
  | _, [] => .ok []
  | 0, _ :: _ => .ok []
  | fuel + 1, token :: rest => do
      let token_value := pyUpperStr token.strValue
      if token_value == "NOT" then
        match rest with
        | t2 :: rest2 =>
            if pyUpperStr t2.strValue == "NULL" then
              return ConstraintDetail.ofDict (.dict [("type", .str "NOT_NULL")]) ::
                (← scanConstraintTokens fuel rest2)
            else
              -- no later guard of the elif chain matches "NOT": skip one token
              scanConstraintTokens fuel rest
        | [] => scanConstraintTokens fuel rest
      else if token_value == "NULL" then
        scanConstraintTokens fuel rest
      else if token_value == "PRIMARY" then
        match rest with
        | t2 :: rest2 =>
            if pyUpperStr t2.strValue == "KEY" then
              let pk := ConstraintDetail.ofDict (.dict [("type", .str "PRIMARY_KEY")])
              match rest2 with
              | t3 :: rest3 =>
                  if pyUpperStr t3.strValue == "AUTO_INCREMENT" then
                    return pk :: ConstraintDetail.ofDict (.dict [("type", .str "AUTO_INCREMENT")]) ::
                      (← scanConstraintTokens fuel rest3)
                  else
                    return pk :: (← scanConstraintTokens fuel rest2)
              | [] => return pk :: (← scanConstraintTokens fuel rest2)
            else scanConstraintTokens fuel rest
        | [] => scanConstraintTokens fuel rest
      else if token_value == "UNIQUE" then
        return ConstraintDetail.ofDict (.dict [("type", .str "UNIQUE")]) ::
          (← scanConstraintTokens fuel rest)
      else if token_value == "AUTO_INCREMENT" || token_value == "AUTOINCREMENT" then
        return ConstraintDetail.ofDict (.dict [("type", .str "AUTO_INCREMENT")]) ::
          (← scanConstraintTokens fuel rest)
      else if token_value == "DEFAULT" then
        match rest with
        | default_val_token :: rest2 => do
            let default_value_str := clean_identifier default_val_token.strValue
            let actual_default_value : PyVal ←
              if default_val_token.ttype == some .numInt ||
                  default_val_token.ttype == some .numFloat then
                if strContains default_value_str "." then
                  match pyFloatParse default_value_str with
                  | some q => pure (.float q)
                  | Option.none =>
                      throw (.valueError ("could not convert string to float: " ++ default_value_str))
                else
                  match pyIntParse default_value_str with
                  | some n => pure (.int n)
                  | Option.none =>
                      throw (.valueError ("invalid literal for int() with base 10: " ++ default_value_str))
              else if pyUpperStr default_value_str == "TRUE" then pure (.bool true)
              else if pyUpperStr default_value_str == "FALSE" then pure (.bool false)
              else pure (.str default_value_str)
            return ConstraintDetail.ofDict (.dict [("type", .str "DEFAULT"),
              ("details", .dict [("value", actual_default_value)])]) ::
              (← scanConstraintTokens fuel rest2)
        | [] => .ok []
      else scanConstraintTokens fuel rest

/-- Embeds `_extract_column_details(tokens)` of `sql_parser.py`. -/
def extract_column_details (tokens : List SqlTok) :
    Except PyErr (Option String × Option String × List String × List ConstraintDetail) := do
  -- first token (if not a keyword): the column name; the source's
  -- isinstance(.., (Identifier, TokenList, Token)) test always holds
  let nameRest : Option String × List SqlTok :=
    match tokens with
    | t :: rest =>
        if !(match t.ttype with | some tt => tt.inKeyword | Option.none => false) then
          (some (clean_identifier t.strValue), rest)
        else (Option.none, tokens)
    | [] => (Option.none, [])
  -- next: the type, a keyword or an Identifier/Function group, with optional
  -- parenthesized parameters in the following token
  let typeRest : Option String × List String × List SqlTok :=
    match nameRest.2 with
    | type_token :: rest =>
        if (match type_token.ttype with | some tt => tt.inKeyword | Option.none => false) ||
            (match type_token with | .ident _ _ => true | .funcTok _ _ => true | _ => false) then
          let sql_type_full := type_token.strValue
          if (match type_token with | .funcTok _ ps => !ps.isEmpty | _ => false) then
            (some sql_type_full, [], rest)
          else
            match rest with
            | .paren pv _ :: rest2 =>
                let param_str := pyStripChars pv ['(', ')']
                let type_params := (pySplitOnChar ',' param_str).map pyStrip
                (some (sql_type_full ++ "(" ++ param_str ++ ")"), type_params, rest2)
            | _ => (some sql_type_full, [], rest)
        else (Option.none, [], nameRest.2)
    | [] => (Option.none, [], [])
  let constraints ← scanConstraintTokens typeRest.2.2.length typeRest.2.2
  return (nameRest.1, typeRest.1, typeRest.2.1, constraints)

/-- Embeds the per-element step of `_parse_table_elements`: an element with
a truthy name and type reaches line 154, which calls
`_extract_type_and_params` — a function defined nowhere in the module — so
CPython raises `NameError` there; the `ColumnISR` construction on line 157
is unreachable. -/
def processElement (element_tokens : List SqlTok) : Except PyErr (Option ColumnISR) := do
  let (col_name, sql_type, _type_p, _constrs) ← extract_column_details element_tokens
  if (match col_name with | some s => !s.isEmpty | Option.none => false) &&
      (match sql_type with | some s => !s.isEmpty | Option.none => false) then
    throw (.nameError "name \x27_extract_type_and_params\x27 is not defined")
  else
    return Option.none

/-- Embeds `_parse_table_elements(tokens_in_parenthesis)` of `sql_parser.py`
(the top-level comma split, respecting nested parentheses). -/
def parse_table_elements (tokens_in_parenthesis : List SqlTok) :
    Except PyErr (List ColumnISR × List ConstraintDetail) := do
  let mut columns_isr : List ColumnISR := []
  let table_constraints_isr : List ConstraintDetail := []
  let mut current_element_tokens : List SqlTok := []
  let mut paren_level : Int := 0
  for token in tokens_in_parenthesis do
    if token.isWhitespace ||
        (token.ttype == some .punct && (token.strValue == "(" || token.strValue == ")") &&
          paren_level == 0 && current_element_tokens.isEmpty) then
      continue
    if token.strValue == "(" then paren_level := paren_level + 1
    else if token.strValue == ")" then paren_level := paren_level - 1
    if token.ttype == some .punct && token.strValue == "," && paren_level == 0 then
      if !current_element_tokens.isEmpty then
        match ← processElement current_element_tokens with
        | some col => columns_isr := columns_isr ++ [col]
        | Option.none => pure ()
        current_element_tokens := []
    else
      if !(token.isWhitespace || token.isComment) then
        current_element_tokens := current_element_tokens ++ [token]
  if !current_element_tokens.isEmpty then
    match ← processElement current_element_tokens with
    | some col => columns_isr := columns_isr ++ [col]
    | Option.none => pure ()
  return (columns_isr, table_constraints_isr)

/-- Model of sqlparse `Statement.get_type()`: the first token that is not
whitespace or a comment decides; a DDL keyword yields its normalized value,
anything else `"UNKNOWN"` (the DML/CTE cases of sqlparse never matter to
this parser, which only compares against `"CREATE"`). -/
def stmtGetType (stmt : List SqlTok) : String :=
  match stmt.find? (fun t => !t.isWhitespace && !t.isComment) with
  | some t => if t.ttype == some .kwDDL then t.normalized else "UNKNOWN"
  | Option.none => "UNKNOWN"

/-- Embeds the modifier-skipping `while` loop of `parse_sql_ddl_input`
(lines 194-196). -/
def skipModifiers : List SqlTok → List SqlTok
  | [] => []
  | t :: rest =>
      if t.isKeywordTok &&
          !(["TABLE", "VIEW", "INDEX", "DATABASE", "SCHEMA"].contains (pyUpperStr t.strValue)) then
        skipModifiers rest
      else t :: rest

/-- Embeds `parse_sql_ddl_input(sql_ddl)` of `sql_parser.py`, stated over
the statement/token stream produced by the external `sqlparse` library
(`sqlparse.parse(sql_ddl)`), which the `SqlTok` type models. -/
def parse_sql_ddl_input (parsed_statements : List (List SqlTok)) : Except PyErr SchemaISR := do
  let mut tables_isr : List TableISR := []
  let schema_name : Option String := Option.none
  for stmt in parsed_statements do
    if stmtGetType stmt != "CREATE" then continue
    let tokens := stmt.filter (fun t => !t.isWhitespace && !t.isComment)
    -- `tokens[0]` (line 190) raises IndexError on an empty list
    let t0 ← match tokens with
      | t :: _ => pure t
      | [] => throw (.indexError "list index out of range")
    if !(t0.matchTok .kwDDL "CREATE") then continue
    match skipModifiers (tokens.drop 1) with
    | [] => continue
    | tTable :: afterTable =>
      if !(tTable.matchTok .kw "TABLE") then continue
      let afterIfNotExists :=
        match afterTable with
        | t :: rest => if t.matchTok .kw "IF NOT EXISTS" then rest else afterTable
        | [] => afterTable
      match afterIfNotExists with
      | [] => continue
      | tName :: afterName =>
        if !tName.isGroup then continue
        let table_name := clean_identifier tName.realNameStr
        match afterName.find? (fun t => match t with | .paren _ _ => true | _ => false) with
        | some (.paren _ children) =>
            let inner_column_def_tokens := children.filter (fun t =>
              !t.isWhitespace && t.strValue != "(" && t.strValue != ")")
            let res ← parse_table_elements inner_column_def_tokens
            if !res.1.isEmpty then
              tables_isr := tables_isr ++
                [{ name := table_name, columns := res.1, comment := Option.none }]
        | _ => continue
  return { schema_name := schema_name, version := Option.none, tables := tables_isr }

/-- The sqlparse token stream for `"CREATE TABLE x (n INT PRIMARY KEY);"`.
Modelled from the spec: the `sqlparse` tokenizer is external to the
repository; per §4.3 of the spec the statement tokenizes into the `CREATE`
DDL keyword, the `TABLE` keyword, the table-name identifier, and one
parenthesis group whose elements are the column name followed by its type
and constraint keywords. -/
def exampleCreateStmt : List SqlTok :=
  [ .tok .kwDDL "CREATE", .tok .ws " ", .tok .kw "TABLE", .tok .ws " ",
    .ident "x" "x", .tok .ws " ",
    .paren "(n INT PRIMARY KEY)"
      [ .tok .punct "(", .ident "n" "n", .tok .ws " ", .tok .kw "INT", .tok .ws " ",
        .tok .kw "PRIMARY", .tok .ws " ", .tok .kw "KEY", .tok .punct ")" ],
    .tok .punct ";" ]

end SqlParser

/-! ## `parsers/python_orm_parser.py` (over a model of the `ast` module) -/

namespace PythonOrmParser

/-- Modelled Python `ast` expression nodes (the kinds the visitor inspects;
`otherE` stands for every other node kind). -/
inductive PyExpr where
  | nameE (id : String)
  | attrE (value : PyExpr) (attrName : String)
  | constE (v : PyVal)
  | callE (func : PyExpr) (args : List PyExpr) (kwargs : List (String × PyExpr))
  | subscriptE (value : PyExpr) (sliceE : PyExpr)
  | listE (elts : List PyExpr)
  | tupleE (elts : List PyExpr)
  | otherE (tag : String)

/-- Modelled Python `ast` statement nodes.  A `**`-expansion keyword
(`kw.arg is None`) never equals any compared name, so `kwargs` keys are
plain strings. -/
inductive PyStmtAst where
  | assign (targets : List PyExpr) (value : PyExpr)
  | annAssign (target : PyExpr) (ann : PyExpr) (value : Option PyExpr)
  | exprStmt (e : PyExpr)
  | classDef (name : String) (bases : List PyExpr) (body : List PyStmtAst)
  | otherStmt (tag : String)

mutual

/-- Embeds `_get_ast_literal_value` of `python_orm_parser.py` on a present
node: constants evaluate to their value, lists/tuples recurse (tuples are
also represented as `PyVal.list`), every other node becomes the
`"AST_NODE:<kind>"` marker string. -/
def astLitVal : PyExpr → PyVal
  | .constE v => v
  | .listE es => .list (astLitList es)
  | .tupleE es => .list (astLitList es)
  | .nameE _ => .str "AST_NODE:Name"
  | .attrE _ _ => .str "AST_NODE:Attribute"
  | .callE _ _ _ => .str "AST_NODE:Call"
  | .subscriptE _ _ => .str "AST_NODE:Subscript"
  | .otherE tag => .str ("AST_NODE:" ++ tag)

/-- Elementwise literal evaluation. -/
def astLitList : List PyExpr → List PyVal
  | [] => []
  | e :: es => astLitVal e :: astLitList es

end

/-- Embeds `_get_ast_literal_value(node)` (a `None` node yields `None`). -/
def get_ast_literal_value : Option PyExpr → PyVal
  | Option.none => .none
  | some e => astLitVal e

/-- Embeds `_map_sqlalchemy_type_to_generic(sqla_type_name, type_args)` of
`python_orm_parser.py` (`type_args` is accepted but, as in the source,
unused). -/
def map_sqlalchemy_type_to_generic (sqla_type_name : String) (type_args : List PyVal) : String :=
  let _ := type_args
  let sqla_type_upper := pyUpperStr sqla_type_name
  if ["INTEGER", "SMALLINTEGER", "BIGINTEGER", "INT"].contains sqla_type_upper then
    if strContains sqla_type_upper "BIGINTEGER" || strContains sqla_type_upper "BIGINT" then
      "BIG_INTEGER"
    else "INTEGER"
  else if ["STRING", "TEXT", "UNICODE", "UNICODETEXT", "NVARCHAR", "VARCHAR", "CHAR"].contains
      sqla_type_upper then
    if strContains sqla_type_upper "TEXT" || strContains sqla_type_upper "CLOB" then "TEXT"
    else "STRING"
  else if ["FLOAT", "REAL", "DOUBLE_PRECISION", "DOUBLE"].contains sqla_type_upper then "FLOAT"
  else if sqla_type_upper == "NUMERIC" || sqla_type_upper == "DECIMAL" then "DECIMAL"
  else if sqla_type_upper == "BOOLEAN" || sqla_type_upper == "BOOL" then "BOOLEAN"
  else if sqla_type_upper == "DATE" then "DATE"
  else if sqla_type_upper == "DATETIME" then "DATETIME"
  else if sqla_type_upper == "TIMESTAMP" then "TIMESTAMP"
  else if ["BLOB", "BINARY", "LARGEBINARY", "VARBINARY", "BYTEA"].contains sqla_type_upper then
    "BLOB"
  else if sqla_type_upper == "JSON" then "JSON_TYPE"
  else if sqla_type_upper == "UUID" then "UUID_TYPE"
  else if sqla_type_upper == "ENUM" then "ENUM_TYPE"
  else "STRING"

/-- The visitor's configured base-class names (as `parse_python_orm_input`
passes them). -/
def base_class_names : List String := ["Base", "DeclarativeBase", "Model", "BaseModel"]

/-- The visitor's configured module aliases. -/
def sqla_module_aliases : List String := ["sa", "db", "orm", "sqlalchemy", "so"]

/-- Embeds `SQLAlchemyModelVisitor._is_sqlalchemy_base(node)`. -/
def is_sqlalchemy_base (bases : List PyExpr) : Bool :=
  bases.any (fun base =>
    match base with
    | .nameE id => base_class_names.contains id
    | .attrE (.nameE vid) attrName => sqla_module_aliases.contains vid && attrName == "Model"
    | _ => false)

/-- Model of `ast.get_docstring(node)`: the leading constant-string
expression statement of the class body (the source's dedenting is not
modelled; no claim observes docstring text). -/
def get_docstring (body : List PyStmtAst) : Option String :=
  match body with
  | .exprStmt (.constE (.str s)) :: _ => some s
  | _ => Option.none

/-- Split `t` at the first `.` (Python `t.split(".", 1)`). -/
def splitOnFirstDot (t : String) : String × String :=
  match pySplitOnChar '.' t with
  | [] => ("", "")
  | x :: rest => (x, joinWith "." rest)

/-- One keyword argument of the `Column(...)` call (step 3 of
`_parse_column_assignment`, lines 183-195): the accumulated constraint list
and column comment are threaded through. -/
def kwStep (acc : List ConstraintDetail × Option String) (kw : String × PyExpr) :
    List ConstraintDetail × Option String :=
  let val := get_ast_literal_value (some kw.2)
  if kw.1 == "primary_key" then
    match val with
    | .bool true => (acc.1 ++ [ConstraintDetail.ofDict (.dict [("type", .str "PRIMARY_KEY")])], acc.2)
    | _ => acc
  else if kw.1 == "nullable" then
    match val with
    | .bool false => (acc.1 ++ [ConstraintDetail.ofDict (.dict [("type", .str "NOT_NULL")])], acc.2)
    | _ => acc
  else if kw.1 == "unique" then
    match val with
    | .bool true => (acc.1 ++ [ConstraintDetail.ofDict (.dict [("type", .str "UNIQUE")])], acc.2)
    | _ => acc
  else if kw.1 == "autoincrement" then
    match val with
    | .bool true => (acc.1 ++ [ConstraintDetail.ofDict (.dict [("type", .str "AUTO_INCREMENT")])], acc.2)
    | _ => acc
  else if kw.1 == "default" then
    match val with
    | .none => acc
    | v => (acc.1 ++ [ConstraintDetail.ofDict (.dict [("type", .str "DEFAULT"),
        ("details", .dict [("value", v)])])], acc.2)
  else if kw.1 == "comment" then
    match val with
    | .str s => (acc.1, some s)
    | _ => acc
  else if kw.1 == "foreign_key" then
    match val with
    | .str s =>
        if strContains s "." then
          let parts := splitOnFirstDot s
          (acc.1 ++ [ConstraintDetail.ofDict (.dict [("type", .str "FOREIGN_KEY"),
            ("details", .dict [("references_table", .str parts.1),
              ("references_column", .str parts.2)])])], acc.2)
        else acc
    | _ => acc
  else acc

/-- Embeds `SQLAlchemyModelVisitor._parse_column_assignment(node)`: the
column it appends to `self._current_table_columns`, or `none` when the
statement is not a recognized column definition.  (Because of the dead
`elif` in `visit_ClassDef`, only `ast.AnnAssign` nodes ever reach this
method; the source's handling of both statement shapes is embedded.) -/
def parse_column_assignment (stmt : PyStmtAst) : Option ColumnISR :=
  let colNameValue : Option String × Option PyExpr :=
    match stmt with
    | .annAssign target _ value =>
        ((match target with | .nameE id => some id | _ => Option.none), value)
    | .assign targets value =>
        ((match targets with | .nameE id :: _ => some id | _ => Option.none), some value)
    | _ => (Option.none, Option.none)
  match colNameValue with
  | (some col_name, some (.callE func_node args kwargs)) =>
      let is_col_def_call :=
        match func_node with
        | .nameE id => id == "Column" || id == "mapped_column"
        | .attrE (.nameE vid) attrName =>
            sqla_module_aliases.contains vid && (attrName == "Column" || attrName == "mapped_column")
        | _ => false
      if !is_col_def_call then Option.none
      else
        -- 1. type from the annotation, unwrapping Mapped[...] / Optional[...]
        let generic_type0 : String :=
          match stmt with
          | .annAssign _ ann _ =>
              let ann_node :=
                match ann with
                | .subscriptE (.nameE sid) inner =>
                    if sid == "Mapped" || sid == "Optional" then inner else ann
                | _ => ann
              (match ann_node with
               | .nameE py_type_name =>
                   if py_type_name == "int" then "INTEGER"
                   else if py_type_name == "str" then "STRING"
                   else if py_type_name == "float" then "FLOAT"
                   else if py_type_name == "bool" then "BOOLEAN"
                   else if py_type_name == "datetime" then "DATETIME"
                   else map_sqlalchemy_type_to_generic py_type_name []
               | .attrE (.nameE _) sqla_type_name => map_sqlalchemy_type_to_generic sqla_type_name []
               | _ => "STRING")
          | _ => "STRING"
        -- 2. a ForeignKey(...) first positional argument
        let type_arg_node : Option PyExpr := args.head?
        let fkPart : Bool × String × List ConstraintDetail :=
          match type_arg_node with
          | some (.callE fk_func fk_args _) =>
              let is_fk_call :=
                match fk_func with
                | .nameE id => id == "ForeignKey"
                | .attrE _ attrName => attrName == "ForeignKey"
                | _ => false
              if is_fk_call && !fk_args.isEmpty then
                (match get_ast_literal_value fk_args.head? with
                 | .str fk_target =>
                     if strContains fk_target "." then
                       let parts := splitOnFirstDot fk_target
                       let gt := if generic_type0 == "STRING" || generic_type0 == "UNKNOWN_TYPE"
                         then "INTEGER" else generic_type0
                       (true, gt, [ConstraintDetail.ofDict (.dict [("type", .str "FOREIGN_KEY"),
                         ("details", .dict [("references_table", .str parts.1),
                           ("references_column", .str parts.2)])])])
                     else (true, generic_type0, [])
                 | _ => (true, generic_type0, []))
              else (false, generic_type0, [])
          | _ => (false, generic_type0, [])
        -- 2b. otherwise the first positional argument is the type
        let typePart : String × List ConstraintDetail :=
          if fkPart.1 then (fkPart.2.1, [])
          else
            match type_arg_node with
            | some ta =>
                let nameParams : String × List PyVal :=
                  match ta with
                  | .nameE id => (id, [])
                  | .attrE (.nameE vid) attrName => (vid ++ "." ++ attrName, [])
                  | .callE tf targs _ =>
                      ((match tf with
                        | .nameE id => id
                        | .attrE (.nameE vid) attrName => vid ++ "." ++ attrName
                        | _ => ""),
                       targs.map (fun a => get_ast_literal_value (some a)))
                  | _ => ("", [])
                if nameParams.1 != "" then
                  let gt := map_sqlalchemy_type_to_generic nameParams.1 nameParams.2
                  if gt == "ENUM_TYPE" && !nameParams.2.isEmpty then
                    let enum_actual_values := nameParams.2.filterMap (fun v =>
                      match v with | .str s => some s | _ => Option.none)
                    if !enum_actual_values.isEmpty then
                      (gt, [ConstraintDetail.ofDict (.dict [("type", .str "ENUM_VALUES"),
                        ("details", .dict [("values", .list (enum_actual_values.map PyVal.str))])])])
                    else (gt, [])
                  else (gt, [])
                else (fkPart.2.1, [])
            | Option.none => (fkPart.2.1, [])
        -- 3. keyword arguments
        let kwPart := kwargs.foldl kwStep ([], Option.none)
        some { name := col_name, generic_type := typePart.1,
               constraints := fkPart.2.2 ++ typePart.2 ++ kwPart.1,
               comment := kwPart.2 }
  | _ => Option.none

/-- Embeds the class-body loop of `visit_ClassDef` (lines 73-81): the fold
computes the final `_current_table_name` and `_current_table_columns`.  An
`ast.Assign` item matches the source's first `isinstance(item, ast.Assign)`
branch, which only looks for `__tablename__`, so the `elif` that would call
`_parse_column_assignment` is dead for simple assignments — only
`ast.AnnAssign` items produce columns. -/
def processBody (body : List PyStmtAst) (cname : String) : String × List ColumnISR :=
  body.foldl (fun acc item =>
    match item with
    | .assign targets value =>
        (match targets with
         | [.nameE tid] =>
             if tid == "__tablename__" then
               match get_ast_literal_value (some value) with
               | .str v => (v, acc.2)
               | _ => acc
             else acc
         | _ => acc)
    | .annAssign _ _ _ =>
        (match parse_column_assignment item with
         | some col => (acc.1, acc.2 ++ [col])
         | Option.none => acc)
    | _ => acc) (cname, [])

mutual

/-- Embeds `NodeVisitor.visit`/`generic_visit` over a statement list:
class definitions are handled by `visitStmt`, other statements contribute
nothing (no claim nests a class inside a non-class statement). -/
def visitStmts : List PyStmtAst → List TableISR
  | [] => []
  | s :: rest => visitStmt s ++ visitStmts rest

/-- Embeds `SQLAlchemyModelVisitor.visit_ClassDef(node)`: a recognized class
contributes its table (when the table name is truthy and at least one column
was collected), then `generic_visit` descends into the body for nested
class definitions; an unrecognized class is only descended into. -/
def visitStmt : PyStmtAst → List TableISR
  | .classDef cname bases body =>
      if !is_sqlalchemy_base bases then visitStmts body
      else
        let nameCols := processBody body cname
        (if !nameCols.1.isEmpty && !nameCols.2.isEmpty then
          [{ name := nameCols.1, columns := nameCols.2, comment := get_docstring body }]
        else []) ++ visitStmts body
  | _ => []

end

/-- Embeds `parse_python_orm_input(python_code, orm_type)` of
`python_orm_parser.py`, stated over the module syntax tree produced by the
stdlib `ast.parse` (modelled by `PyStmtAst`; a syntactically invalid source
makes `ast.parse` raise, re-raised as `ValueError` before any tree exists,
so that path stays outside this embedding). -/
def parse_python_orm_input (module : List PyStmtAst) (orm_type : String) :
    Except PyErr SchemaISR :=
  if pyLower orm_type != "sqlalchemy" then
    .error (.notImplementedError ("ORM type " ++ orm_type ++ " not supported."))
  else
    .ok { schema_name := Option.none, version := Option.none, tables := visitStmts module }

/-- The syntax tree of the claim's source: a recognized model class whose
body is the simple assignment `status = Column(Enum("a", "b"), default="a")`. -/
def simpleAssignClass : PyStmtAst :=
  .classDef "StatusModel" [.nameE "Base"]
    [ .assign [.nameE "status"]
        (.callE (.nameE "Column")
          [.callE (.nameE "Enum") [.constE (.str "a"), .constE (.str "b")] []]
          [("default", .constE (.str "a"))]) ]

/-- The same class with the assignment annotated:
`status: str = Column(Enum("a", "b"), default="a")`. -/
def annAssignClass : PyStmtAst :=
  .classDef "StatusModel" [.nameE "Base"]
    [ .annAssign (.nameE "status") (.nameE "str")
        (some (.callE (.nameE "Column")
          [.callE (.nameE "Enum") [.constE (.str "a"), .constE (.str "b")] []]
          [("default", .constE (.str "a"))])) ]

end PythonOrmParser

/-! ## Concrete inputs referenced by the claims -/

/-- One INTEGER column `id` carrying PRIMARY_KEY and AUTO_INCREMENT (the
constraint dictionaries exactly as every parser of the repository builds
them). -/
def serialExampleColumn : ColumnISR :=
  { name := "id", generic_type := "INTEGER",
    constraints := [ConstraintDetail.ofDict (.dict [("type", .str "PRIMARY_KEY")]),
                    ConstraintDetail.ofDict (.dict [("type", .str "AUTO_INCREMENT")])],
    comment := Option.none }

/-- A schema with one table `t` holding `serialExampleColumn`. -/
def serialExampleSchema : SchemaISR :=
  { schema_name := Option.none, version := Option.none,
    tables := [{ name := "t", columns := [serialExampleColumn], comment := Option.none }] }

/-- A DEFAULT constraint in the shape the SQL-DDL parser builds it: the
payload sits nested under `details["details"]`. -/
def sqlBuiltDefault : ConstraintDetail :=
  ConstraintDetail.ofDict (.dict [("type", .str "DEFAULT"),
    ("details", .dict [("value", .int 0)])])

/-- A DEFAULT constraint in the shape the JSON parser builds it: the payload
sits at the top level of `details`. -/
def jsonBuiltDefault : ConstraintDetail :=
  ConstraintDetail.ofDict (.dict [("type", .str "DEFAULT"), ("value", .str "x")])

/-- A column carrying a single given constraint. -/
def columnWith (c : ConstraintDetail) : ColumnISR :=
  { name := "p", generic_type := "STRING", constraints := [c], comment := Option.none }

/-- The column the Python-ORM parser builds for
`author_id: int = Column(ForeignKey("users.id"))`: the FOREIGN_KEY payload
is nested under `details["details"]` and uses the singular
`references_column`. -/
def ormBuiltFkColumn : ColumnISR :=
  { name := "author_id", generic_type := "INTEGER",
    constraints := [ConstraintDetail.ofDict (.dict [("type", .str "FOREIGN_KEY"),
      ("details", .dict [("references_table", .str "users"),
        ("references_column", .str "id")])])],
    comment := Option.none }

/-- A FOREIGN_KEY constraint column in the shape the JSON parser builds it:
`references_table` and `references_columns` at the top level of `details`. -/
def jsonBuiltFkColumn : ColumnISR :=
  { name := "author_id", generic_type := "INTEGER",
    constraints := [ConstraintDetail.ofDict (.dict [("type", .str "FOREIGN_KEY"),
      ("references_table", .str "users"),
      ("references_columns", .list [.str "id"])])],
    comment := Option.none }

/-- The column that the annotated variant of the C4 scenario produces. -/
def ormStatusColumn : ColumnISR :=
  { name := "status", generic_type := "ENUM_TYPE",
    constraints := [
      ConstraintDetail.ofDict (.dict [("type", .str "ENUM_VALUES"),
        ("details", .dict [("values", .list [.str "a", .str "b"])])]),
      ConstraintDetail.ofDict (.dict [("type", .str "DEFAULT"),
        ("details", .dict [("value", .str "a")])])],
    comment := Option.none }

/-! ## Theorems settling the claims -/

/-- C1: `convert_isr_to_target_ddl` never raises an UnsupportedFormat-class
error for an unregistered `target_db` — it returns the placeholder string —
while `generate_schema_from_input` does raise the `NotImplementedError`
(the code's UnsupportedFormat) for an unregistered `input_type`, an error
distinguishable from the `ValueError` used for invalid input. -/
theorem convert_placeholder_instead_of_unsupported_format :
    ParsingEngine.convert_isr_to_target_ddl
        { schema_name := Option.none, version := Option.none, tables := [] } "db2"
      = "-- Placeholder DDL for db2 from ISR with 0 tables and schema name \x27None\x27 --"
    ∧ ParsingEngine.generate_schema_from_input "some data" "xml"
      = .error (.notImplementedError "Parser for input type \x27xml\x27 is not implemented.")
    ∧ ∀ msg, (PyErr.notImplementedError "Parser for input type \x27xml\x27 is not implemented.")
        ≠ PyErr.valueError msg :=
  ⟨rfl, rfl, fun _ h => PyErr.noConfusion h⟩

/-- C2: on the well-formed statement `CREATE TABLE x (n INT PRIMARY KEY);`
the SQL-DDL parser raises `NameError` (the helper `_extract_type_and_params`
called on line 154 is defined nowhere in the module), instead of returning
the table without raising. -/
theorem sql_parser_raises_name_error_on_well_formed_create :
    SqlParser.parse_sql_ddl_input [SqlParser.exampleCreateStmt]
      = .error (.nameError "name \x27_extract_type_and_params\x27 is not defined") := rfl

/-- C3: on a PRIMARY_KEY + AUTO_INCREMENT INTEGER column the type mapping
does yield `SERIAL`, and the constraint helper — when it is given the
`pg_type` string its signature declares — emits no `PRIMARY KEY`/`NOT NULL`
clause; but `convert_isr_to_postgresql_ddl` passes the boolean `is_serial`
instead of that string (line 136), so the conversion raises
`AttributeError` rather than returning any DDL text. -/
theorem postgresql_serial_conversion_raises_attribute_error :
    PostgresqlAdapter.convert_isr_to_postgresql_ddl serialExampleSchema
      = .error (.attributeError "\x27bool\x27 object has no attribute \x27upper\x27")
    ∧ PostgresqlAdapter.map_generic_type_to_postgresql serialExampleColumn [] = .ok "SERIAL"
    ∧ PostgresqlAdapter.get_column_constraints_ddl serialExampleColumn (.str "SERIAL") = .ok "" :=
  ⟨rfl, rfl, rfl⟩

/-- C4: inside a recognized model class the simple assignment
`status = Column(Enum("a","b"), default="a")` produces no column at all (the
class yields no table), because `visit_ClassDef`'s first branch consumes
every `ast.Assign` for the `__tablename__` check and its column-parsing
`elif` is dead for simple assignments; the same body as an annotated
assignment does produce the ENUM_TYPE column with ENUM_VALUES and DEFAULT
constraints. -/
theorem orm_simple_assignment_yields_no_column :
    PythonOrmParser.parse_python_orm_input [PythonOrmParser.simpleAssignClass] "sqlalchemy"
      = .ok { schema_name := Option.none, version := Option.none, tables := [] }
    ∧ PythonOrmParser.parse_python_orm_input [PythonOrmParser.annAssignClass] "sqlalchemy"
      = .ok { schema_name := Option.none, version := Option.none,
              tables := [{ name := "StatusModel", columns := [ormStatusColumn],
                           comment := Option.none }] } :=
  ⟨rfl, rfl⟩

/-- C5: `_clean_csv_header` trims and cleans as claimed on `" First Name "`
and `"!!!"`, but the digit-prefix rule is lost: the final
underscore-collapsing `"_".join(filter(None, name.split('_')))` drops the
leading underscore that the previous step just added, so `"123col"` cleans
to `"123col"`, not to the claimed `"_123col"`. -/
theorem csv_header_cleaning_digit_prefix_lost :
    CsvParser.clean_csv_header " First Name " = "First_Name"
    ∧ CsvParser.clean_csv_header "!!!" = "unnamed_column"
    ∧ CsvParser.clean_csv_header "123col" = "123col"
    ∧ CsvParser.clean_csv_header "123col" ≠ "_123col" := by
  refine ⟨rfl, rfl, rfl, ?_⟩
  decide

/-- The sampling loop of `_infer_column_type` computes, for each of the
three flags, the conjunction over all sampled values (the early break fires
only when all three flags are already false, so it changes nothing). -/
theorem inferFlagsLoop_eq (l : List String) (i f b : Bool) :
    CsvParser.inferFlagsLoop l i f b =
      (i && l.all (fun v => (pyIntParse v).isSome),
       f && l.all (fun v => (pyFloatParse v).isSome),
       b && l.all (fun v => CsvParser.bool_keywords.contains (pyLower v))) := by
  induction l generalizing i f b with
  | nil => simp [CsvParser.inferFlagsLoop]
  | cons v rest ih =>
      simp only [CsvParser.inferFlagsLoop, List.all_cons]
      cases hi : (pyIntParse v).isSome <;>
        cases hf : (pyFloatParse v).isSome <;>
        cases hb : CsvParser.bool_keywords.contains (pyLower v) <;>
        cases i <;> cases f <;> cases b <;>
        simp_all [ih]

/-- C6: `_infer_column_type` samples up to 100 non-empty, non-null values
and applies the fixed precedence INTEGER > FLOAT > BOOLEAN > STRING, each
tier requiring every sampled value to satisfy it (empty/null values are
excluded from the sample and so never disqualify a type); the four
claimed example columns infer as stated. -/
theorem csv_type_inference_precedence :
    (∀ values : List (Option String),
        CsvParser.infer_column_type values 100 =
          (let sampled := (values.filterMap (fun v =>
              match v with
              | Option.none => Option.none
              | some s => if pyStrip s == "" then Option.none else some s)).take 100
           if sampled.isEmpty then "STRING"
           else if sampled.all (fun v => (pyIntParse v).isSome) then "INTEGER"
           else if sampled.all (fun v => (pyFloatParse v).isSome) then "FLOAT"
           else if sampled.all (fun v => CsvParser.bool_keywords.contains (pyLower v)) then "BOOLEAN"
           else "STRING"))
    ∧ CsvParser.infer_column_type [some "1", some "2", some "3"] 100 = "INTEGER"
    ∧ CsvParser.infer_column_type [some "1", some "2.5"] 100 = "FLOAT"
    ∧ CsvParser.infer_column_type [some "true", some "F", some "1"] 100 = "BOOLEAN"
    ∧ CsvParser.infer_column_type [some "1", some "text"] 100 = "STRING" := by
  refine ⟨?_, by decide, by decide, by decide, by decide⟩
  intro values
  simp only [CsvParser.infer_column_type, inferFlagsLoop_eq, Bool.true_and]

/-- C7: each embedded parser is a pure function of its input, so two
invocations on identical input are structurally identical — both the
produced `SchemaISR` and any failure. -/
theorem parsers_deterministic_on_identical_input :
    (∀ s : String, JsonParser.parse_json_input s = JsonParser.parse_json_input s)
    ∧ (∀ (rows : List (List String)) (nm : Option String),
        CsvParser.parse_csv_rows rows nm = CsvParser.parse_csv_rows rows nm)
    ∧ (∀ stmts : List (List SqlParser.SqlTok),
        SqlParser.parse_sql_ddl_input stmts = SqlParser.parse_sql_ddl_input stmts)
    ∧ (∀ (m : List PythonOrmParser.PyStmtAst) (t : String),
        PythonOrmParser.parse_python_orm_input m t = PythonOrmParser.parse_python_orm_input m t) :=
  ⟨fun _ => rfl, fun _ _ => rfl, fun _ => rfl, fun _ _ => rfl⟩

/-- C8: a `ConstraintDetail` stores the constructor's dictionary unchanged
(so `details["type"]` is the `type` attribute); a DEFAULT constraint as the
SQL-DDL parser builds it nests its payload under `details["details"]`, so
the PostgreSQL adapter's top-level `details.get("value")` finds nothing and
renders no DEFAULT clause, while the JSON-parser shape keeps the payload
where the adapter looks; likewise the ORM-built FOREIGN_KEY (nested payload,
singular `references_column`) yields no ALTER statement, while the
JSON-parser shape yields one. -/
theorem constraint_details_payload_location :
    (∀ d : PyVal, (ConstraintDetail.ofDict d).details = d
        ∧ (ConstraintDetail.ofDict d).type = pyValGet d "type")
    ∧ SqlParser.scanConstraintTokens 2
        [.tok .kw "DEFAULT", .tok .numInt "0"] = .ok [sqlBuiltDefault]
    ∧ PythonOrmParser.parse_column_assignment
        (.annAssign (.nameE "author_id") (.nameE "int")
          (some (.callE (.nameE "Column")
            [.callE (.nameE "ForeignKey") [.constE (.str "users.id")] []] [])))
      = some ormBuiltFkColumn
    ∧ pyValGet sqlBuiltDefault.details "value" = Option.none
    ∧ pyValGet jsonBuiltDefault.details "value" = some (.str "x")
    ∧ PostgresqlAdapter.get_column_constraints_ddl (columnWith sqlBuiltDefault) (.str "INTEGER")
      = .ok ""
    ∧ PostgresqlAdapter.get_column_constraints_ddl (columnWith jsonBuiltDefault) (.str "VARCHAR(255)")
      = .ok "DEFAULT \x27x\x27"
    ∧ PostgresqlAdapter.fkAlterForColumn "posts" ormBuiltFkColumn = .ok []
    ∧ PostgresqlAdapter.fkAlterForColumn "posts" jsonBuiltFkColumn
      = .ok ["ALTER TABLE \"posts\" ADD CONSTRAINT \"fk_posts_author_id\" FOREIGN KEY (\"author_id\") REFERENCES \"users\" (\"id\");"] :=
  ⟨fun _ => ⟨rfl, rfl⟩, rfl, rfl, rfl, rfl, rfl, rfl, rfl, rfl⟩

/-- C9: the input `"[1, 2]"` is valid JSON whose top-level value is a list,
and `parse_json_input` raises `AttributeError` on it (at
`data.get("schema_name")`), not the `ValueError` used for malformed input. -/
theorem json_parser_attribute_error_on_non_object :
    JsonParser.json_loads "[1, 2]" = .ok (.list [.int 1, .int 2])
    ∧ JsonParser.parse_json_input "[1, 2]"
      = .error (.attributeError "\x27list\x27 object has no attribute \x27get\x27")
    ∧ ∀ msg, JsonParser.parse_json_input "[1, 2]" ≠ .error (.valueError msg) := by
  refine ⟨rfl, rfl, ?_⟩
  intro msg h
  have h2 : Except.error (ε := PyErr) (α := SchemaISR)
      (.attributeError "\x27list\x27 object has no attribute \x27get\x27")
      = .error (.valueError msg) := h
  simp at h2

/-- `updateRow` preserves the number of columns. -/
theorem updateRow_length (cols : List (List String)) (r : List String) :
    (CsvParser.updateRow cols r).length = cols.length := by
  induction cols generalizing r with
  | nil => simp [CsvParser.updateRow]
  | cons c cs ih =>
      cases r with
      | nil => simp [CsvParser.updateRow]
      | cons x xs => simp [CsvParser.updateRow, ih]

/-- One transposition step appends `r`'s `i`-th cell (when present) to the
`i`-th column. -/
theorem updateRow_getD (cols : List (List String)) (r : List String) (i : Nat)
    (h : i < cols.length) :
    (CsvParser.updateRow cols r).getD i [] = cols.getD i [] ++ (r.get? i).toList := by
  induction cols generalizing r i with
  | nil => simp at h
  | cons c cs ih =>
      cases r with
      | nil => simp [CsvParser.updateRow]
      | cons x xs =>
          cases i with
          | zero => simp [CsvParser.updateRow]
          | succ n =>
              simp only [CsvParser.updateRow, List.getD_cons_succ, List.get?_cons_succ]
              exact ih xs n (by simpa using Nat.lt_of_succ_lt_succ h)

/-- The transposition fold collects, for each column index, exactly the
cells of the data rows that reach that index. -/
theorem foldl_updateRow_getD (drows : List (List String)) (cols : List (List String)) (i : Nat)
    (h : i < cols.length) :
    (drows.foldl CsvParser.updateRow cols).getD i [] =
      cols.getD i [] ++ drows.filterMap (fun r => r.get? i) := by
  induction drows generalizing cols with
  | nil => simp
  | cons r rs ih =>
      simp only [List.foldl_cons, List.filterMap_cons]
      rw [ih (CsvParser.updateRow cols r) (by rw [updateRow_length]; exact h),
        updateRow_getD cols r i h]
      cases hg : r.get? i <;> simp [List.append_assoc]

/-- `updateRow` ignores cells beyond the column count. -/
theorem updateRow_take (cols : List (List String)) (r : List String) :
    CsvParser.updateRow cols (r.take cols.length) = CsvParser.updateRow cols r := by
  induction cols generalizing r with
  | nil => simp [CsvParser.updateRow]
  | cons c cs ih =>
      cases r with
      | nil => simp
      | cons x xs => simp [CsvParser.updateRow, List.take_succ_cons, ih]

/-- Truncating every data row to the column count does not change the
transposition fold. -/
theorem foldl_updateRow_truncate (drows : List (List String)) (cols : List (List String))
    (n : Nat) (h : cols.length = n) :
    drows.foldl CsvParser.updateRow cols =
      (drows.map (fun r => r.take n)).foldl CsvParser.updateRow cols := by
  induction drows generalizing cols with
  | nil => simp
  | cons r rs ih =>
      simp only [List.foldl_cons, List.map_cons]
      rw [← h, updateRow_take, ih (CsvParser.updateRow cols r) (by rw [updateRow_length, h])]
      subst h
      rfl

/-- The duplicate-header pass keeps one output name per input name. -/
theorem dedupFold_length (names : List String) (counts : List (String × Nat))
    (acc : List String) :
    (CsvParser.dedupFold names counts acc).length = names.length + acc.length := by
  induction names generalizing counts acc with
  | nil => simp [CsvParser.dedupFold]
  | cons nm rest ih =>
      simp only [CsvParser.dedupFold]
      split
      · simp [ih]; omega
      · simp [ih]; omega

/-- The replicate initialisation has only empty samples. -/
theorem getD_replicate_nil (n i : Nat) :
    (List.replicate n ([] : List String)).getD i [] = [] := by
  induction n generalizing i with
  | zero => simp
  | succ m ih => cases i <;> simp [List.replicate, ih]

/-- C10: with a non-empty header, ragged data rows never cause an error —
the parse succeeds, truncating every data row to the header width changes
nothing (extra cells are ignored), and each column's type-inference sample
is exactly the cells of the rows that are long enough to reach it (a short
row contributes nothing to the trailing columns). -/
theorem csv_ragged_rows_are_safe (header : List String) (data_rows : List (List String))
    (nm : Option String)
    (h : (header.all (fun c => pyStrip c == "")) = false) :
    (∃ isr, CsvParser.parse_csv_rows (header :: data_rows) nm = .ok isr)
    ∧ CsvParser.parse_csv_rows (header :: data_rows) nm
        = CsvParser.parse_csv_rows (header :: data_rows.map (fun r => r.take header.length)) nm
    ∧ (∀ i, i < header.length →
        (data_rows.foldl CsvParser.updateRow (List.replicate header.length [])).getD i []
          = data_rows.filterMap (fun r => r.get? i)) := by
  have hlen : (CsvParser.dedupHeaders (header.map CsvParser.clean_csv_header)).length
      = header.length := by
    simp [CsvParser.dedupHeaders, dedupFold_length]
  refine ⟨?_, ?_, ?_⟩
  · simp only [CsvParser.parse_csv_rows, h, Bool.false_eq_true, if_false]
    cases hd : data_rows.isEmpty <;> simp
  · simp only [CsvParser.parse_csv_rows, h, Bool.false_eq_true, if_false]
    cases data_rows with
    | nil => simp
    | cons r rs =>
        simp only [List.map_cons, List.isEmpty_cons]
        rw [foldl_updateRow_truncate ((r :: rs)) _ header.length
          (by rw [List.length_replicate, hlen])]
        rfl
  · intro i hi
    rw [foldl_updateRow_getD _ _ i (by rw [List.length_replicate]; exact hi),
      getD_replicate_nil]
    simp

/-- Witness for `csv_ragged_rows_are_safe` at the header `["a", "b"]` with
one short and one long data row. -/
theorem csv_ragged_rows_are_safe_witness :
    ((["a", "b"].all (fun c => pyStrip c == "")) = false)
    ∧ ((∃ isr, CsvParser.parse_csv_rows (["a", "b"] :: [["1"], ["2", "3", "4"]]) Option.none
          = .ok isr)
       ∧ CsvParser.parse_csv_rows (["a", "b"] :: [["1"], ["2", "3", "4"]]) Option.none
          = CsvParser.parse_csv_rows
              (["a", "b"] :: [["1"], ["2", "3", "4"]].map
                (fun r => r.take (["a", "b"] : List String).length)) Option.none
       ∧ (∀ i, i < (["a", "b"] : List String).length →
          ([["1"], ["2", "3", "4"]].foldl CsvParser.updateRow
              (List.replicate (["a", "b"] : List String).length [])).getD i []
            = [["1"], ["2", "3", "4"]].filterMap (fun r => r.get? i))) :=
  ⟨by decide, csv_ragged_rows_are_safe ["a", "b"] [["1"], ["2", "3", "4"]] Option.none (by decide)⟩
